import Mathlib

/-!
Verification development for the AcademyIQ course-recommendation app
(src/app.py).  The Python source is shallowly embedded:

* the SQLite tables `users` and `progress` become explicit list-backed
  states (`DB`), with the SQL statements' effects modelled row by row;
* pandas catalog loading (`load_course_data`) becomes validation and
  mapping over raw CSV rows (`RawRow`), where `pd.read_csv` turning an
  empty CSV cell into NaN is modelled by the empty string standing for a
  missing value;
* scikit-learn's `TfidfVectorizer(stop_words='english')` and
  `cosine_similarity` become explicit token counting, smoothed idf
  weights (`ln ((1+n)/(1+df)) + 1`), L2 normalization and a cosine score
  over `Fin m → ℝ` vectors;
* Python's stable `sorted(..., key=score, reverse=True)` becomes a
  stable descending insertion sort on `(index, score)` pairs.
-/

namespace AcademyIQ

/-! ### Text processing: tokenizer of `TfidfVectorizer` -/

/-- A word character in the sense of the default sklearn token pattern
`\b\w\w+\b` (ASCII fragment of `\w`). -/
def isWordChar (c : Char) : Bool := c.isAlphanum || c = '_'

/-- Tokenizer worker: walks the character list, accumulating the current
run of word characters (reversed) and emitting it when it has length at
least 2, as the pattern `\w\w+` demands.  Characters are lowercased on
the way in (`lowercase=True` default). -/
def tokenizeAux : List Char → List Char → List String
  | [], cur => if 2 ≤ cur.length then [cur.reverse.asString] else []
  | c :: cs, cur =>
    if isWordChar c then tokenizeAux cs (c.toLower :: cur)
    else (if 2 ≤ cur.length then [cur.reverse.asString] else []) ++ tokenizeAux cs []

/-- Tokenization used by `TfidfVectorizer`: lowercase, split on non-word
characters, keep tokens of length ≥ 2. -/
def tokenize (s : String) : List String := tokenizeAux s.toList []

/-- Python's `str.strip()`: remove leading and trailing whitespace. -/
def pyStrip (s : String) : String :=
  ((s.toList.dropWhile Char.isWhitespace).reverse.dropWhile Char.isWhitespace).reverse.asString

/-- The built-in English stop-word list selected by
`TfidfVectorizer(stop_words='english')`. -/
def english_stop_words : List String :=
  ["a", "about", "above", "across", "after", "afterwards", "again", "against",
   "all", "almost", "alone", "along", "already", "also", "although", "always",
   "am", "among", "amongst", "amoungst", "amount", "an", "and", "another",
   "any", "anyhow", "anyone", "anything", "anyway", "anywhere", "are",
   "around", "as", "at", "back", "be", "became", "because", "become",
   "becomes", "becoming", "been", "before", "beforehand", "behind", "being",
   "below", "beside", "besides", "between", "beyond", "bill", "both",
   "bottom", "but", "by", "call", "can", "cannot", "cant", "co", "con",
   "could", "couldnt", "cry", "de", "describe", "detail", "do", "done",
   "down", "due", "during", "each", "eg", "eight", "either", "eleven",
   "else", "elsewhere", "empty", "enough", "etc", "even", "ever", "every",
   "everyone", "everything", "everywhere", "except", "few", "fifteen",
   "fifty", "fill", "find", "fire", "first", "five", "for", "former",
   "formerly", "forty", "found", "four", "from", "front", "full", "further",
   "get", "give", "go", "had", "has", "hasnt", "have", "he", "hence", "her",
   "here", "hereafter", "hereby", "herein", "hereupon", "hers", "herself",
   "him", "himself", "his", "how", "however", "hundred", "i", "ie", "if",
   "in", "inc", "indeed", "interest", "into", "is", "it", "its", "itself",
   "keep", "last", "latter", "latterly", "least", "less", "ltd", "made",
   "many", "may", "me", "meanwhile", "might", "mill", "mine", "more",
   "moreover", "most", "mostly", "move", "much", "must", "my", "myself",
   "name", "namely", "neither", "never", "nevertheless", "next", "nine",
   "no", "nobody", "none", "noone", "nor", "not", "nothing", "now",
   "nowhere", "of", "off", "often", "on", "once", "one", "only", "onto",
   "or", "other", "others", "otherwise", "our", "ours", "ourselves", "out",
   "over", "own", "part", "per", "perhaps", "please", "put", "rather", "re",
   "same", "see", "seem", "seemed", "seeming", "seems", "serious", "several",
   "she", "should", "show", "side", "since", "sincere", "six", "sixty",
   "so", "some", "somehow", "someone", "something", "sometime", "sometimes",
   "somewhere", "still", "such", "system", "take", "ten", "than", "that",
   "the", "their", "them", "themselves", "then", "thence", "there",
   "thereafter", "thereby", "therefore", "therein", "thereupon", "these",
   "they", "thick", "thin", "third", "this", "those", "though", "three",
   "through", "throughout", "thru", "thus", "to", "together", "too", "top",
   "toward", "towards", "twelve", "twenty", "two", "un", "under", "until",
   "up", "upon", "us", "very", "via", "was", "we", "well", "were", "what",
   "whatever", "when", "whence", "whenever", "where", "whereafter",
   "whereas", "whereby", "wherein", "whereupon", "wherever", "whether",
   "which", "while", "whither", "who", "whoever", "whole", "whom", "whose",
   "why", "will", "with", "within", "without", "would", "yet", "you",
   "your", "yours", "yourself", "yourselves"]

/-- Terms of a document after tokenization and stop-word removal; this is
the token stream the vectorizer counts. -/
def docTerms (doc : String) : List String :=
  (tokenize doc).filter (fun t => !(english_stop_words.contains t))

/-- Raw term frequency of `t` in a document. -/
def termCount (doc : String) (t : String) : ℕ := (docTerms doc).count t

/-- Document frequency: number of corpus documents containing `t`. -/
def df_count (corpus : List String) (t : String) : ℕ :=
  (corpus.filter (fun d => (docTerms d).contains t)).length

/-- Lexicographic comparison of character lists (used to sort the fitted
vocabulary alphabetically, as sklearn does). -/
def charListLe : List Char → List Char → Bool
  | [], _ => true
  | _ :: _, [] => false
  | a :: as, b :: bs => if a < b then true else if b < a then false else charListLe as bs

/-- String order used to sort the vocabulary. -/
def strLe (a b : String) : Bool := charListLe a.toList b.toList

/-- Stable insertion step for the vocabulary sort. -/
def insertStr (a : String) : List String → List String
  | [] => [a]
  | b :: l => if strLe a b then a :: b :: l else b :: insertStr a l

/-- Insertion sort of the vocabulary terms. -/
def sortStr : List String → List String
  | [] => []
  | a :: l => insertStr a (sortStr l)

/-- The fitted vocabulary: all distinct non-stop-word terms of the
corpus, sorted alphabetically (sklearn assigns column indices in sorted
term order). -/
def build_vocab (corpus : List String) : List String :=
  sortStr ((corpus.map docTerms).flatten.dedup)

/-! ### Persistence layer: the SQLite database of `init_db` -/

/-- A row of the `users` table
(`user_id PK AUTOINCREMENT, username UNIQUE, interests, goals, skill_level`). -/
structure UserRow where
  user_id : ℕ
  username : String
  interests : String
  goals : String
  skill_level : String
deriving DecidableEq

/-- A row of the `progress` table
(`progress_id PK AUTOINCREMENT, user_id, course_id, completion_status REAL`).
The schema carries no uniqueness constraint on `(user_id, course_id)`. -/
structure ProgressRow where
  progress_id : ℕ
  user_id : ℕ
  course_id : String
  completion_status : ℚ
deriving DecidableEq

/-- The database state: both tables plus the AUTOINCREMENT counters
(SQLite assigns rowids starting at 1). -/
structure DB where
  users : List UserRow
  progress : List ProgressRow
  next_user_id : ℕ
  next_progress_id : ℕ
deriving DecidableEq

/-- `init_db` on a fresh file: both tables empty, autoincrement at 1. -/
def init_db : DB := ⟨[], [], 1, 1⟩

/-- `add_user`: `INSERT INTO users (username, interests, goals, skill_level)
VALUES (?,?,?,?)`.  The `UNIQUE` constraint on `username` makes the insert
raise `sqlite3.IntegrityError` when the username is already present; the
source catches it and returns `None` (modelled as `none`), otherwise it
commits and returns `c.lastrowid` (the fresh autoincrement id). -/
def add_user (db : DB) (username interests goals skill_level : String) :
    DB × Option ℕ :=
  if db.users.any (fun u => u.username == username) then (db, none)
  else
    ({ db with
        users := db.users ++ [⟨db.next_user_id, username, interests, goals, skill_level⟩]
        next_user_id := db.next_user_id + 1 },
     some db.next_user_id)

/-- `get_user`: `SELECT * FROM users WHERE username = ?` with `fetchone`. -/
def get_user (db : DB) (username : String) : Option UserRow :=
  db.users.find? (fun u => u.username == username)

/-- `update_progress`: `INSERT OR REPLACE INTO progress (user_id, course_id,
completion_status) VALUES (?,?,?)`.  No `progress_id` is supplied, so SQLite
assigns a fresh one; since `progress_id` is the only uniqueness constraint on
the table, the `OR REPLACE` clause never fires and the statement always
appends a brand-new row. -/
def update_progress (db : DB) (user_id : ℕ) (course_id : String)
    (completion_status : ℚ) : DB :=
  { db with
      progress := db.progress ++
        [⟨db.next_progress_id, user_id, course_id, completion_status⟩]
      next_progress_id := db.next_progress_id + 1 }

/-- `get_user_progress`: `SELECT course_id, completion_status FROM progress
WHERE user_id = ?` with `fetchall` (rows in insertion order). -/
def get_user_progress (db : DB) (user_id : ℕ) : List (String × ℚ) :=
  (db.progress.filter (fun r => r.user_id == user_id)).map
    (fun r => (r.course_id, r.completion_status))

/-! ### Catalog loading: `load_course_data` -/

/-- A raw CSV row with the columns the source reads.  Each field holds the
cell's text; `pd.read_csv` parses an empty cell as NaN, so the empty string
models a missing value. -/
structure RawRow where
  course_id : String
  title : String
  category : String
  skills_covered : String
  prerequisites : String
  difficulty_level : String
  youtube_links : String
  research_papers : String
  related_articles : String
  text_books : String
  github_repository : String
deriving DecidableEq

/-- An empty CSV cell is NaN after `pd.read_csv`. -/
def cellIsNa (s : String) : Bool := s == ""

/-- A wholly empty row, removed by `df.dropna(how='all')`. -/
def rowAllNa (r : RawRow) : Bool :=
  cellIsNa r.course_id && cellIsNa r.title && cellIsNa r.category &&
  cellIsNa r.skills_covered && cellIsNa r.prerequisites &&
  cellIsNa r.difficulty_level && cellIsNa r.youtube_links &&
  cellIsNa r.research_papers && cellIsNa r.related_articles &&
  cellIsNa r.text_books && cellIsNa r.github_repository

/-- A row with a missing essential column, removed by `df.dropna(subset=
['course_id', 'title', 'Category', 'skills_covered', 'prerequisites'])`. -/
def rowEssentialNa (r : RawRow) : Bool :=
  cellIsNa r.course_id || cellIsNa r.title || cellIsNa r.category ||
  cellIsNa r.skills_covered || cellIsNa r.prerequisites

/-- A course record retained by the loader.  Essential columns are plain
strings; the remaining columns may be NaN and stay optional. -/
structure Course where
  course_id : String
  title : String
  category : String
  skills_covered : String
  prerequisites : String
  difficulty_level : Option String
  youtube_links : Option String
  research_papers : Option String
  related_articles : Option String
  text_books : Option String
  github_repository : Option String
  features : String
deriving DecidableEq

/-- An optional cell as surfaced to later code (`none` = NaN). -/
def cell (s : String) : Option String := if s = "" then none else some s

/-- Build the retained `Course` from a validated raw row, including the
derived column `df['features'] = f"{title} {Category} {skills_covered}
{prerequisites}"`. -/
def mkCourse (r : RawRow) : Course where
  course_id := r.course_id
  title := r.title
  category := r.category
  skills_covered := r.skills_covered
  prerequisites := r.prerequisites
  difficulty_level := cell r.difficulty_level
  youtube_links := cell r.youtube_links
  research_papers := cell r.research_papers
  related_articles := cell r.related_articles
  text_books := cell r.text_books
  github_repository := cell r.github_repository
  features := r.title ++ " " ++ r.category ++ " " ++ r.skills_covered ++ " " ++ r.prerequisites

/-- The validation pipeline of `load_course_data`: drop wholly-empty rows,
drop rows missing an essential column, add the `features` column. -/
def validateRows (rows : List RawRow) : List Course :=
  (((rows.filter (fun r => !rowAllNa r)).filter
      (fun r => !rowEssentialNa r)).map mkCourse)

/-- `load_course_data`: `none` as input models a missing or unreadable CSV
file (`FileNotFoundError` / `Exception`), for which the source returns
`None`; a readable file always yields the validated rows — even when every
row was dropped, in which case the result is `some []`, an empty catalog,
not a failure. -/
def load_course_data (source : Option (List RawRow)) : Option (List Course) :=
  source.map validateRows

/-- The caller-side check in `main`: `if df is None: st.stop()`.  The
session stops after loading exactly when `load_course_data` returned
`None`. -/
def session_stops_after_load (df : Option (List Course)) : Bool := df.isNone

/-! ### TF-IDF weighting and cosine similarity -/

/-- Smoothed inverse document frequency used by `TfidfVectorizer`
(`smooth_idf=True` default): `idf t = ln ((1 + n) / (1 + df t)) + 1`. -/
noncomputable def idf (corpus : List String) (t : String) : ℝ :=
  Real.log ((1 + (corpus.length : ℝ)) / (1 + (df_count corpus t : ℝ))) + 1

/-- Dot product of two vectors over the fitted vocabulary. -/
noncomputable def dot {m : ℕ} (f g : Fin m → ℝ) : ℝ := ∑ i, f i * g i

/-- Euclidean norm of a vector. -/
noncomputable def norm2 {m : ℕ} (f : Fin m → ℝ) : ℝ := Real.sqrt (dot f f)

/-- L2 normalization (`norm='l2'` default).  A zero vector has norm 0 and
is left as the zero vector, exactly as sklearn's `normalize` does (in Lean
division by zero yields zero). -/
noncomputable def l2normalize {m : ℕ} (f : Fin m → ℝ) : Fin m → ℝ :=
  fun i => f i / norm2 f

/-- Unnormalized TF-IDF row of a text over the vocabulary fitted on
`corpus`: raw term count times the fitted idf.  Out-of-vocabulary terms of
the text contribute nothing because only vocabulary coordinates exist. -/
noncomputable def raw_tfidf (corpus : List String) (text : String) :
    Fin (build_vocab corpus).length → ℝ :=
  fun i => (termCount text ((build_vocab corpus).get i) : ℝ) *
    idf corpus ((build_vocab corpus).get i)

/-- TF-IDF embedding of a text in the space fitted on `corpus`: used both
for the matrix rows (`fit_transform`) and for the query
(`tfidf_model.transform`). -/
noncomputable def tfidf_transform (corpus : List String) (text : String) :
    Fin (build_vocab corpus).length → ℝ :=
  l2normalize (raw_tfidf corpus text)

/-- Cosine similarity `⟨f, g⟩ / (‖f‖ ‖g‖)`; a zero vector on either side
gives 0, as in sklearn. -/
noncomputable def cosine_similarity {m : ℕ} (f g : Fin m → ℝ) : ℝ :=
  dot f g / (norm2 f * norm2 g)

/-- The score row `cosine_sim[0]` of `recommend_courses`: the query
projected into the space fitted on `corpus`, scored against every corpus
document in order. -/
noncomputable def cosineScores (corpus : List String) (query : String) : List ℝ :=
  corpus.map (fun d =>
    cosine_similarity (tfidf_transform corpus query) (tfidf_transform corpus d))

/-! ### Ranking: the stable descending sort of `recommend_courses` -/

/-- One insertion step of the stable descending sort: the incoming pair
(which comes earlier in the original list) is placed before the first
element whose score does not exceed it, so equal scores keep their
original order. -/
noncomputable def insertDesc (a : ℕ × ℝ) : List (ℕ × ℝ) → List (ℕ × ℝ)
  | [] => [a]
  | b :: l => if b.2 ≤ a.2 then a :: b :: l else b :: insertDesc a l

/-- Python's `sorted(sim_scores, key=lambda x: x[1], reverse=True)`:
a stable sort, descending by score.  A stable sort's output is uniquely
determined, so this insertion sort is observationally the same function
as CPython's timsort on these inputs. -/
noncomputable def sortDesc : List (ℕ × ℝ) → List (ℕ × ℝ)
  | [] => []
  | a :: l => insertDesc a (sortDesc l)

/-- `recommend_courses(user_input, tfidf_model, tfidf_matrix, dataframe,
top_n=5)`.  The pair `(tfidf_model, tfidf_matrix)` is always produced by
fitting on a corpus of feature texts, so it is represented here by that
corpus.  `if not user_input or dataframe.empty` is Python truthiness: only
the empty string (not a blank one) and the empty frame short-circuit. -/
noncomputable def recommend_courses (user_input : String) (corpus : List String)
    (dataframe : List Course) (top_n : ℕ := 5) : List Course :=
  if user_input = "" ∨ dataframe = [] then []
  else
    let sim_scores := (cosineScores corpus user_input).enum
    let sorted := sortDesc sim_scores
    let top_n' := min top_n sim_scores.length
    let course_indices := (sorted.take top_n').map Prod.fst
    course_indices.filterMap (fun i => dataframe[i]?)

/-! ### The Recommendations page flow in `main` -/

/-- The category filter applied on the Recommendations page:
`final_filtered_df = df` unless a specific category is selected. -/
def filtered_df (df : List Course) (selected_category : String) : List Course :=
  if selected_category = "All" then df
  else df.filter (fun c => c.category == selected_category)

/-- The query string handed to the engine: the selected category plus a
space (when not "All") followed by the stripped keywords. -/
def combined_input (selected_category keywords : String) : String :=
  (if selected_category = "All" then "" else selected_category ++ " ") ++ pyStrip keywords

/-- The Get-Recommendations flow of `main` (lines 307–324): filter by
category; bail out (`none`) when the filtered frame is empty, when the
combined input strips to nothing, or when re-fitting the vectorizer on the
subset raises `ValueError` (empty vocabulary); otherwise re-fit the
TF-IDF space on the filtered features and rank with the default
`top_n = 5`. -/
noncomputable def recommendation_flow (df : List Course)
    (selected_category keywords : String) : Option (List Course) :=
  let final := filtered_df df selected_category
  if final = [] then none
  else
    let combined := combined_input selected_category keywords
    if pyStrip combined = "" then none
    else
      let corpus := final.map Course.features
      if build_vocab corpus = [] then none
      else some (recommend_courses combined corpus final)

/-- The slider-driven progress update of the Progress page:
`st.slider("Completion Percentage", 0, 100, 0)` yields an integer
percentage (always within the slider bounds), and the update stores
`completion_percentage / 100.0`.  No validation happens anywhere on this
path. -/
def progress_page_update (db : DB) (user_id : ℕ) (course_id : String)
    (completion_percentage : ℤ) : DB :=
  update_progress db user_id course_id ((completion_percentage : ℚ) / 100)

/-! ### Concrete data: the catalog of the specification's worked scenario -/

/-- Raw row of course C1 ("Intro to ML", Data Science). -/
def r1ex : RawRow :=
  ⟨"C1", "Intro to ML", "Data Science", "python, stats", "none",
   "Beginner", "", "", "", "", ""⟩

/-- Raw row of course C2 ("Finance 101", Finance). -/
def r2ex : RawRow :=
  ⟨"C2", "Finance 101", "Finance", "accounting", "none",
   "Beginner", "", "", "", "", ""⟩

/-- The two-course catalog of the specification's concrete scenarios. -/
def catalog_spec : List Course := validateRows [r1ex, r2ex]

/-- A raw row whose essential columns are all missing (only the difficulty
cell is filled): it is dropped by validation, so a catalog consisting of it
alone has zero surviving rows. -/
def invalidRow : RawRow := ⟨"", "", "", "", "", "Beginner", "", "", "", "", ""⟩

/-! ### Claims about the persistence layer -/

/-- Claim C4 (code bug): the spec requires that two successive upserts for
the same `(user, course)` pair leave exactly one record holding the second
value, but the `progress` table has no uniqueness constraint on
`(user_id, course_id)`, so `INSERT OR REPLACE` never replaces: after
`update_progress(1, "C101", 0.4)` then `update_progress(1, "C101", 0.9)`
the store holds two records for the pair, with both values. -/
theorem upsert_accumulates_duplicate_rows :
    (((update_progress (update_progress init_db 1 "C101" (2/5)) 1 "C101" (9/10)).progress.filter
          (fun r => r.user_id == 1 && r.course_id == "C101")).map
        (fun r => r.completion_status)) = [2/5, 9/10] ∧
    ¬(((update_progress (update_progress init_db 1 "C101" (2/5)) 1 "C101" (9/10)).progress.filter
          (fun r => r.user_id == 1 && r.course_id == "C101")).length = 1) := by
  refine ⟨?_, ?_⟩ <;> simp [update_progress, init_db]

/-- Claim C5: once a registration for a username has succeeded, a second
attempt with the same username fails (returns no user id) and leaves the
store — in particular the first registration's row — untouched. -/
theorem add_user_duplicate_rejected (db : DB)
    (username interests goals skill_level interests2 goals2 skill_level2 : String)
    (uid : ℕ) (h : (add_user db username interests goals skill_level).2 = some uid) :
    add_user (add_user db username interests goals skill_level).1 username
        interests2 goals2 skill_level2
      = ((add_user db username interests goals skill_level).1, none) := by
  by_cases hA : db.users.any (fun u => u.username == username)
  · simp [add_user, hA] at h
  · simp [add_user, hA, List.any_append]

/-- Witness for C5 at a concrete store: registering "alice" into the fresh
database succeeds with id 1, and a second "alice" registration is rejected
without touching the store. -/
theorem add_user_duplicate_rejected_witness :
    add_user (add_user init_db "alice" "ml" "job" "Beginner").1 "alice"
        "web" "exam" "Advanced"
      = ((add_user init_db "alice" "ml" "job" "Beginner").1, none) :=
  add_user_duplicate_rejected init_db "alice" "ml" "job" "Beginner"
    "web" "exam" "Advanced" 1 (by decide)

/-- Claim C9, counterexample part: `update_progress` performs no range
validation at all — called with the fraction 3/2 (a percentage input of
150), it persists the out-of-range value instead of rejecting it. -/
theorem progress_update_persists_out_of_range :
    (progress_page_update init_db 1 "C101" 150).progress
      = [⟨1, 1, "C101", 3/2⟩] ∧ ¬((3/2 : ℚ) ≤ 1) := by
  constructor
  · simp only [progress_page_update, update_progress, init_db]
    norm_num
  · norm_num

/-- Claim C9, amended: on the only call path of the app, the slider bounds
the percentage to [0, 100], and the stored fraction `p / 100` then lies in
[0, 1]; the write itself is unconditional. -/
theorem progress_page_update_stores_in_range (db : DB) (uid : ℕ) (cid : String)
    (p : ℤ) (h0 : 0 ≤ p) (h100 : p ≤ 100) :
    (progress_page_update db uid cid p).progress
      = db.progress ++ [⟨db.next_progress_id, uid, cid, (p : ℚ) / 100⟩] ∧
    0 ≤ (p : ℚ) / 100 ∧ (p : ℚ) / 100 ≤ 1 := by
  refine ⟨rfl, div_nonneg (by exact_mod_cast h0) (by norm_num), ?_⟩
  rw [div_le_one (by norm_num)]
  exact_mod_cast h100

/-- Witness for the amended C9 at slider value 50: the stored fraction is
1/2, inside [0, 1]. -/
theorem progress_page_update_stores_in_range_witness :
    (progress_page_update init_db 1 "C101" 50).progress
      = init_db.progress ++ [⟨init_db.next_progress_id, 1, "C101", ((50 : ℤ) : ℚ) / 100⟩] ∧
    0 ≤ ((50 : ℤ) : ℚ) / 100 ∧ ((50 : ℤ) : ℚ) / 100 ≤ 1 :=
  progress_page_update_stores_in_range init_db 1 "C101" 50 (by decide) (by decide)

/-- Claim C10: a progress upsert only ever appends a row for its own
`(user, course)` pair — every progress record for a different pair is
unchanged, the `users` table is unchanged, and `get_user_progress` for any
other user returns the same result before and after. -/
theorem update_progress_frame (db : DB) (u : ℕ) (c : String) (v : ℚ)
    (u2 : ℕ) (h : u2 ≠ u) :
    get_user_progress (update_progress db u c v) u2 = get_user_progress db u2 ∧
    (update_progress db u c v).users = db.users ∧
    ((update_progress db u c v).progress.filter
        (fun r => !(r.user_id == u && r.course_id == c)))
      = db.progress.filter (fun r => !(r.user_id == u && r.course_id == c)) := by
  refine ⟨?_, rfl, ?_⟩
  · have hu : (u == u2) = false := beq_eq_false_iff_ne.2 (fun e => h e.symm)
    simp [get_user_progress, update_progress, List.filter_append, hu]
  · simp [update_progress, List.filter_append]

/-- Witness for C10: updating user 1's progress leaves user 2's progress
query, the users table, and all other pairs' records unchanged. -/
theorem update_progress_frame_witness :
    get_user_progress (update_progress init_db 1 "C101" (1/4)) 2
        = get_user_progress init_db 2 ∧
    (update_progress init_db 1 "C101" (1/4)).users = init_db.users ∧
    ((update_progress init_db 1 "C101" (1/4)).progress.filter
        (fun r => !(r.user_id == 1 && r.course_id == "C101")))
      = init_db.progress.filter (fun r => !(r.user_id == 1 && r.course_id == "C101")) :=
  update_progress_frame init_db 1 "C101" (1/4) 2 (by decide)

/-! ### Claims about catalog loading -/

/-- Claim C7: the loader materializes a course exactly for the raw rows
that are neither wholly empty nor missing an essential column; every
retained course has non-empty `course_id`, `title`, `category`,
`skills_covered` and `prerequisites`, and its derived `features` text is
the space-joined concatenation of title, category, skills and
prerequisites in that fixed order. -/
theorem load_retains_exactly_valid_rows (rows : List RawRow) :
    (∀ c : Course, c ∈ validateRows rows ↔
        ∃ r, r ∈ rows ∧ rowAllNa r = false ∧ rowEssentialNa r = false ∧
          c = mkCourse r) ∧
    (∀ c ∈ validateRows rows,
        (c.course_id ≠ "" ∧ c.title ≠ "" ∧ c.category ≠ "" ∧
         c.skills_covered ≠ "" ∧ c.prerequisites ≠ "") ∧
        c.features = c.title ++ " " ++ c.category ++ " " ++
          c.skills_covered ++ " " ++ c.prerequisites) := by
  have hmem : ∀ c : Course, c ∈ validateRows rows ↔
      ∃ r, r ∈ rows ∧ rowAllNa r = false ∧ rowEssentialNa r = false ∧
        c = mkCourse r := by
    intro c
    simp only [validateRows, List.mem_map, List.mem_filter, Bool.not_eq_true']
    constructor
    · rintro ⟨r, ⟨⟨hr, hall⟩, hess⟩, hc⟩
      exact ⟨r, hr, hall, hess, hc.symm⟩
    · rintro ⟨r, hr, hall, hess, hc⟩
      exact ⟨r, ⟨⟨hr, hall⟩, hess⟩, hc.symm⟩
  refine ⟨hmem, ?_⟩
  intro c hc
  rcases (hmem c).1 hc with ⟨r, _, _, hess, hc⟩
  have h5 := hess
  simp only [rowEssentialNa, cellIsNa, Bool.or_eq_false_iff,
    beq_eq_false_iff_ne] at h5
  obtain ⟨⟨⟨⟨h1, h2⟩, h3⟩, h4⟩, hp⟩ := h5
  subst hc
  exact ⟨⟨h1, h2, h3, h4, hp⟩, rfl⟩

/-- Witness for C7 at the concrete catalog: the retained "Intro to ML"
course has all essential fields non-empty and the expected features
text. -/
theorem load_retains_exactly_valid_rows_witness :
    ((mkCourse r1ex).course_id ≠ "" ∧ (mkCourse r1ex).title ≠ "" ∧
     (mkCourse r1ex).category ≠ "" ∧ (mkCourse r1ex).skills_covered ≠ "" ∧
     (mkCourse r1ex).prerequisites ≠ "") ∧
    (mkCourse r1ex).features = (mkCourse r1ex).title ++ " " ++
      (mkCourse r1ex).category ++ " " ++ (mkCourse r1ex).skills_covered ++
      " " ++ (mkCourse r1ex).prerequisites :=
  (load_retains_exactly_valid_rows [r1ex]).2 (mkCourse r1ex) (by decide)

/-- Claim C8, counterexample part: when zero rows survive validation the
load does not fail — it returns an empty catalog (`some []`), and the
caller's only stop-check (`if df is None: st.stop()`) does not fire, so
the session proceeds with the empty catalog. -/
theorem empty_catalog_is_not_an_error :
    load_course_data (some [invalidRow]) = some [] ∧
    session_stops_after_load (load_course_data (some [invalidRow])) = false := by
  decide

/-- Claim C8, amended: loading any readable source succeeds with exactly
the validated rows — even when that is the empty catalog — and the caller
stops the session only when the source itself was missing or unreadable
(the `None` case). -/
theorem load_fails_only_on_unreadable_source (rows : List RawRow) :
    load_course_data (some rows) = some (validateRows rows) ∧
    session_stops_after_load (load_course_data (some rows)) = false ∧
    session_stops_after_load (load_course_data none) = true :=
  ⟨rfl, rfl, rfl⟩

/-! ### Score bounds: every cosine score lies in the unit interval -/

theorem df_count_le_length (corpus : List String) (t : String) :
    df_count corpus t ≤ corpus.length :=
  List.length_filter_le _ _

theorem idf_nonneg (corpus : List String) (t : String) : 0 ≤ idf corpus t := by
  have hdf : (df_count corpus t : ℝ) ≤ (corpus.length : ℝ) := by
    exact_mod_cast df_count_le_length corpus t
  have hpos : (0 : ℝ) < 1 + (df_count corpus t : ℝ) := by positivity
  have hx : (1 : ℝ) ≤ (1 + (corpus.length : ℝ)) / (1 + (df_count corpus t : ℝ)) :=
    (one_le_div hpos).2 (by linarith)
  have hlog := Real.log_nonneg hx
  unfold idf
  linarith

theorem raw_tfidf_nonneg (corpus : List String) (text : String)
    (i : Fin (build_vocab corpus).length) : 0 ≤ raw_tfidf corpus text i :=
  mul_nonneg (Nat.cast_nonneg _) (idf_nonneg _ _)

theorem norm2_nonneg {m : ℕ} (f : Fin m → ℝ) : 0 ≤ norm2 f :=
  Real.sqrt_nonneg _

theorem tfidf_transform_nonneg (corpus : List String) (text : String)
    (i : Fin (build_vocab corpus).length) : 0 ≤ tfidf_transform corpus text i :=
  div_nonneg (raw_tfidf_nonneg corpus text i) (norm2_nonneg _)

theorem dot_nonneg {m : ℕ} (f g : Fin m → ℝ)
    (hf : ∀ i, 0 ≤ f i) (hg : ∀ i, 0 ≤ g i) : 0 ≤ dot f g :=
  Finset.sum_nonneg fun i _ => mul_nonneg (hf i) (hg i)

theorem dot_self_nonneg {m : ℕ} (f : Fin m → ℝ) : 0 ≤ dot f f :=
  Finset.sum_nonneg fun _ _ => mul_self_nonneg _

/-- Cauchy–Schwarz for the explicit dot product and Euclidean norm. -/
theorem dot_le_norm2_mul_norm2 {m : ℕ} (f g : Fin m → ℝ)
    (hf : ∀ i, 0 ≤ f i) (hg : ∀ i, 0 ≤ g i) :
    dot f g ≤ norm2 f * norm2 g := by
  have h := Finset.sum_mul_sq_le_sq_mul_sq Finset.univ f g
  have hsq : dot f g ^ 2 ≤ dot f f * dot g g := by
    simpa [dot, pow_two] using h
  rw [norm2, norm2, ← Real.sqrt_mul (dot_self_nonneg f)]
  exact (Real.le_sqrt (dot_nonneg f g hf hg)
    (mul_nonneg (dot_self_nonneg f) (dot_self_nonneg g))).2 hsq

theorem cosine_similarity_nonneg {m : ℕ} (f g : Fin m → ℝ)
    (hf : ∀ i, 0 ≤ f i) (hg : ∀ i, 0 ≤ g i) : 0 ≤ cosine_similarity f g :=
  div_nonneg (dot_nonneg f g hf hg)
    (mul_nonneg (norm2_nonneg f) (norm2_nonneg g))

theorem cosine_similarity_le_one {m : ℕ} (f g : Fin m → ℝ)
    (hf : ∀ i, 0 ≤ f i) (hg : ∀ i, 0 ≤ g i) : cosine_similarity f g ≤ 1 :=
  div_le_one_of_le₀ (dot_le_norm2_mul_norm2 f g hf hg)
    (mul_nonneg (norm2_nonneg f) (norm2_nonneg g))

/-- Every entry of the score row is a cosine of two vectors with
non-negative TF-IDF coordinates, hence lies in [0, 1]. -/
theorem cosineScores_mem_unit (corpus : List String) (query : String) :
    ∀ s ∈ cosineScores corpus query, 0 ≤ s ∧ s ≤ 1 := by
  intro s hs
  rcases List.mem_map.1 (by simpa [cosineScores] using hs) with ⟨d, _, rfl⟩
  exact ⟨cosine_similarity_nonneg _ _
      (tfidf_transform_nonneg corpus query) (tfidf_transform_nonneg corpus d),
    cosine_similarity_le_one _ _
      (tfidf_transform_nonneg corpus query) (tfidf_transform_nonneg corpus d)⟩

/-! ### Permutation and stability of the descending sort -/

theorem insertDesc_perm (a : ℕ × ℝ) :
    ∀ l : List (ℕ × ℝ), List.Perm (insertDesc a l) (a :: l)
  | [] => List.Perm.refl _
  | b :: l => by
    unfold insertDesc
    split
    · exact List.Perm.refl _
    · exact ((insertDesc_perm a l).cons b).trans (List.Perm.swap a b l)

theorem sortDesc_perm : ∀ l : List (ℕ × ℝ), List.Perm (sortDesc l) l
  | [] => List.Perm.refl _
  | a :: l => (insertDesc_perm a (sortDesc l)).trans ((sortDesc_perm l).cons a)

theorem length_sortDesc (l : List (ℕ × ℝ)) : (sortDesc l).length = l.length :=
  (sortDesc_perm l).length_eq

/-- Inserting a pair whose original index precedes everything already in a
sorted list keeps the list sorted-with-stable-ties: descending scores, and
on equal scores ascending original indices. -/
theorem insertDesc_pairwise (a : ℕ × ℝ) :
    ∀ l : List (ℕ × ℝ),
      l.Pairwise (fun x y => y.2 ≤ x.2 ∧ (x.2 = y.2 → x.1 < y.1)) →
      (∀ b ∈ l, a.1 < b.1) →
      (insertDesc a l).Pairwise (fun x y => y.2 ≤ x.2 ∧ (x.2 = y.2 → x.1 < y.1))
  | [], _, _ => by simp [insertDesc]
  | b :: l, hp, hlt => by
    unfold insertDesc
    rcases List.pairwise_cons.1 hp with ⟨hb, hl⟩
    split
    next hba =>
      refine List.pairwise_cons.2 ⟨?_, hp⟩
      intro x hx
      rcases List.mem_cons.1 hx with rfl | hx'
      · exact ⟨hba, fun _ => hlt x hx⟩
      · exact ⟨le_trans (hb x hx').1 hba, fun _ => hlt x hx⟩
    next hba =>
      have hab : a.2 < b.2 := not_le.1 hba
      refine List.pairwise_cons.2
        ⟨?_, insertDesc_pairwise a l hl (fun x hx => hlt x (List.mem_cons_of_mem b hx))⟩
      intro x hx
      rcases List.mem_cons.1 ((insertDesc_perm a l).mem_iff.1 hx) with rfl | hx'
      · refine ⟨le_of_lt hab, fun heq => ?_⟩
        exact absurd hab (by rw [heq]; exact lt_irrefl _)
      · exact hb x hx'

/-- The stable descending sort of an index-increasing list is pairwise
sorted descending with ties in ascending original-index order. -/
theorem sortDesc_pairwise :
    ∀ l : List (ℕ × ℝ), l.Pairwise (fun x y => x.1 < y.1) →
      (sortDesc l).Pairwise (fun x y => y.2 ≤ x.2 ∧ (x.2 = y.2 → x.1 < y.1))
  | [], _ => by simp [sortDesc]
  | a :: l, hp => by
    rcases List.pairwise_cons.1 hp with ⟨ha, hl⟩
    exact insertDesc_pairwise a (sortDesc l) (sortDesc_pairwise l hl)
      (fun b hb => ha b ((sortDesc_perm l).mem_iff.1 hb))

theorem mem_enumFrom_le {α : Type _} :
    ∀ (n : ℕ) (xs : List α) (p : ℕ × α), p ∈ List.enumFrom n xs → n ≤ p.1
  | _, [], p, h => absurd h (List.not_mem_nil p)
  | n, x :: xs, p, h => by
    rw [List.enumFrom_cons] at h
    rcases List.mem_cons.1 h with rfl | h'
    · exact le_refl n
    · exact Nat.le_of_succ_le (mem_enumFrom_le (n + 1) xs p h')

theorem enumFrom_pairwise {α : Type _} :
    ∀ (n : ℕ) (xs : List α),
      (List.enumFrom n xs).Pairwise (fun x y => x.1 < y.1)
  | _, [] => by simp
  | n, x :: xs => by
    rw [List.enumFrom_cons]
    refine List.pairwise_cons.2 ⟨?_, enumFrom_pairwise (n + 1) xs⟩
    intro p hp
    exact Nat.lt_of_succ_le (mem_enumFrom_le (n + 1) xs p hp)

/-- The index components of `list(enumerate(scores))` strictly increase. -/
theorem enum_pairwise {α : Type _} (xs : List α) :
    xs.enum.Pairwise (fun x y => x.1 < y.1) :=
  enumFrom_pairwise 0 xs

/-! ### Claims about the ranking engine -/

/-- The ranking never returns more than `min top_n |corpus|` items. -/
theorem recommend_courses_length_le (query : String) (corpus : List String)
    (courses : List Course) (top_n : ℕ) :
    (recommend_courses query corpus courses top_n).length
      ≤ min top_n corpus.length := by
  simp only [recommend_courses]
  split
  · simp
  · refine le_trans (List.length_filterMap_le _ _) ?_
    rw [List.length_map, List.length_take, length_sortDesc, List.enum_length]
    have hsc : (cosineScores corpus query).length = corpus.length := by
      simp [cosineScores]
    rw [hsc]
    exact min_le_left _ _

/-- Claim C1: for every query, fitted space aligned with the course
sequence, and `top_n`, the ranking returns at most
`min top_n |courses|` items, and every cosine score in the score row lies
in [0, 1] — in particular the score of every returned item does. -/
theorem rank_at_most_topN_and_scores_unit (query : String)
    (courses : List Course) (top_n : ℕ) :
    (recommend_courses query (courses.map Course.features) courses top_n).length
        ≤ min top_n courses.length ∧
    ∀ s ∈ cosineScores (courses.map Course.features) query, 0 ≤ s ∧ s ≤ 1 := by
  constructor
  · have h := recommend_courses_length_le query (courses.map Course.features)
      courses top_n
    rwa [List.length_map] at h
  · exact cosineScores_mem_unit _ _

/-- Claim C2: the ranking is a pure function of its inputs (two runs agree
definitionally), and the sorted score list is pairwise descending with
equal scores kept in ascending original-index order — the stable-sort tie
contract. -/
theorem rank_deterministic_and_ties_by_original_index (query : String)
    (corpus : List String) (courses : List Course) (top_n : ℕ) :
    recommend_courses query corpus courses top_n
        = recommend_courses query corpus courses top_n ∧
    (sortDesc (cosineScores corpus query).enum).Pairwise
      (fun x y => y.2 ≤ x.2 ∧ (x.2 = y.2 → x.1 < y.1)) :=
  ⟨rfl, sortDesc_pairwise _ (enum_pairwise _)⟩

/-- Claim C3, counterexample part: a blank (whitespace-only) query is not
special-cased — `if not user_input` is Python truthiness and only catches
the empty string — so on a one-course catalog the blank query `" "` returns
that course, not the empty sequence. -/
theorem blank_query_is_not_special_cased :
    recommend_courses " " [(mkCourse r1ex).features] [mkCourse r1ex] 5
        = [mkCourse r1ex] ∧
    recommend_courses " " [(mkCourse r1ex).features] [mkCourse r1ex] 5 ≠ [] := by
  have h : recommend_courses " " [(mkCourse r1ex).features] [mkCourse r1ex] 5
      = [mkCourse r1ex] := by rfl
  exact ⟨h, by rw [h]; simp⟩

/-- Claim C3, amended: the empty query, and the empty course sequence,
each yield the empty ranking (and no error). -/
theorem empty_query_or_empty_catalog_returns_empty (query : String)
    (corpus : List String) (courses : List Course) (top_n : ℕ) :
    recommend_courses "" corpus courses top_n = [] ∧
    recommend_courses query corpus [] top_n = [] := by
  constructor
  · unfold recommend_courses
    rw [if_pos (Or.inl rfl)]
  · unfold recommend_courses
    rw [if_pos (Or.inr rfl)]

/-- Claim C6, counterexample part: with the category filter "Finance" and
empty keywords, the flow queries the engine with the non-blank string
"Finance " (the category is prepended to the keywords), so on the
specification's two-course catalog the ranking is `[C2]`, not empty. -/
theorem finance_with_empty_keywords_ranks_nonempty :
    recommendation_flow catalog_spec "Finance" "" = some [mkCourse r2ex] ∧
    recommendation_flow catalog_spec "Finance" "" ≠ some [] := by
  have h : recommendation_flow catalog_spec "Finance" "" = some [mkCourse r2ex] := by
    rfl
  refine ⟨h, ?_⟩
  rw [h]
  simp

/-- Claim C6, amended: the flow does fit the vector space only on the
Finance subset's feature texts, but the engine query is "Finance "
(category plus space plus stripped keywords), which is non-empty, and the
resulting ranking is the Finance course itself. -/
theorem finance_with_empty_keywords_flow_details :
    filtered_df catalog_spec "Finance" = [mkCourse r2ex] ∧
    combined_input "Finance" "" = "Finance " ∧
    recommendation_flow catalog_spec "Finance" ""
      = some (recommend_courses "Finance "
          [(mkCourse r2ex).features] [mkCourse r2ex]) ∧
    recommend_courses "Finance " [(mkCourse r2ex).features] [mkCourse r2ex]
      = [mkCourse r2ex] := by
  exact ⟨rfl, rfl, rfl, rfl⟩

end AcademyIQ
